import Mathlib

/-!
Verification of the fast_backend claim-checking service (agents.py, models.py,
main.py) against its natural-language specification, via a shallow embedding.

External effects (Groq model calls, NewsData feed, HTTP fetches, DuckDuckGo
search, Python's string hash) are passed in as explicit oracle arguments;
everything else is translated directly from the source.  Python exceptions
are modelled by outcome inductives; pydantic construction-time validation is
modelled by Option-returning smart constructors.  The `datetime` timestamp
field of `Claim` is omitted: no claim mentions it and it defaults to the
current time.
-/

namespace FastBackend

/-- models.py `Evidence`: source, content, url (all plain strings). -/
structure Evidence where
  source : String
  content : String
  url : String
deriving Repr, DecidableEq

/-- models.py `ScoreResponse` (after successful pydantic validation):
four integer sub-scores and a verdict string. -/
structure ScoreResponse where
  final_score : Int
  source_reliability : Int
  evidence_strength : Int
  consistency : Int
  verdict : String
deriving Repr, DecidableEq

/-- models.py: `verdict: Literal["VERIFIED", "FALSE", "MIXED", "UNVERIFIED"]`. -/
def validVerdict (v : String) : Bool :=
  v = "VERIFIED" || v = "FALSE" || v = "MIXED" || v = "UNVERIFIED"

/-- models.py: each sub-score field carries `Field(..., ge=0, le=100)`. -/
def scoreInRange (n : Int) : Bool :=
  decide (0 ≤ n) && decide (n ≤ 100)

/-- models.py `Claim` (timestamp omitted, see module comment).  `status` is
kept as a raw string; pydantic's `Literal` check on construction is the
separate `claimStatusValid` / `mkClaim` below. -/
structure Claim where
  id : Option String
  text : String
  source : Option String
  status : String
  evidence : List Evidence
  score : Option ScoreResponse
deriving Repr, DecidableEq

/-- models.py: `status: Literal["unverified", "verified", "processing"]` —
the set of statuses pydantic accepts when a `Claim` is constructed. -/
def claimStatusValid (s : String) : Bool :=
  s = "unverified" || s = "verified" || s = "processing"

/-- Pydantic construction of a `Claim`: succeeds iff the status literal check
passes (pydantic v2 validates at construction; plain attribute assignment
afterwards is not validated by default). -/
def mkClaim (id : Option String) (text : String) (source : Option String)
    (status : String) (evidence : List Evidence) (score : Option ScoreResponse) :
    Option Claim :=
  if claimStatusValid status then
    some { id := id, text := text, source := source, status := status,
           evidence := evidence, score := score }
  else none

/-- main.py `/api/verify` lines 78-83: narrow the claim status from the
scoring verdict (`VERIFIED` -> verified, `FALSE` -> false, else unverified). -/
def narrowStatus (verdict : String) : String :=
  if verdict = "VERIFIED" then "verified"
  else if verdict = "FALSE" then "false"
  else "unverified"

/-! ## ScoreAgent (agents.py lines 228-291) -/

/-- A well-typed rendering of the JSON object parsed from the model reply:
each expected key is present (`some`) or absent/of unusable type (`none`).
Pydantic's range and literal checks on these values are `payloadToResponse`. -/
structure ScorePayload where
  final_score : Option Int
  source_reliability : Option Int
  evidence_strength : Option Int
  consistency : Option Int
  verdict : Option String
deriving Repr, DecidableEq

/-- Outcome of the Groq chat-completion call in `ScoreAgent.score`:
the API call may raise, `json.loads` may raise, or a JSON object is parsed. -/
inductive GroqOutcome where
  | apiError (msg : String)
  | parseError (msg : String)
  | parsed (payload : ScorePayload)
deriving Repr, DecidableEq

/-- `ScoreResponse(**result)`: pydantic builds the response iff every field is
present, every sub-score is within [0,100] and the verdict is one of the four
literals; otherwise it raises ValidationError (here: `none`). -/
def payloadToResponse (p : ScorePayload) : Option ScoreResponse :=
  match p.final_score, p.source_reliability, p.evidence_strength,
        p.consistency, p.verdict with
  | some a, some b, some c, some d, some v =>
    if scoreInRange a && scoreInRange b && scoreInRange c && scoreInRange d
        && validVerdict v then
      some { final_score := a, source_reliability := b, evidence_strength := c,
             consistency := d, verdict := v }
    else none
  | _, _, _, _, _ => none

/-- The deterministic fallback `ScoreResponse` returned on every failure path
of `ScoreAgent.score` (agents.py lines 238-244, 276-282, 285-291). -/
def fallbackScore : ScoreResponse :=
  { final_score := 0, source_reliability := 0, evidence_strength := 0,
    consistency := 0, verdict := "UNVERIFIED" }

/-- agents.py line 246: `"\n".join(f"- {e.content} ({e.url})" for e in evidence)`. -/
def evidenceLine (e : Evidence) : String :=
  "- " ++ e.content ++ " (" ++ e.url ++ ")"

def evidenceText (ev : List Evidence) : String :=
  String.intercalate "\n" (ev.map evidenceLine)

/-- agents.py lines 247-259: the prompt, an f-string over the claim text and
the joined evidence lines (surrounding instruction text kept verbatim in
spirit; indentation whitespace of the f-string collapsed). -/
def scorePrompt (c : Claim) : String :=
  "Analyze the following claim based on the evidence provided.\nClaim: "
    ++ c.text ++ "\nEvidence:\n" ++ evidenceText c.evidence
    ++ "\nReturn a JSON object with the following keys:\n"
    ++ "- final_score (0-100)\n- source_reliability (0-100)\n"
    ++ "- evidence_strength (0-100)\n- consistency (0-100)\n"
    ++ "- verdict (VERIFIED, FALSE, MIXED, UNVERIFIED)"

/-- agents.py `ScoreAgent.score`.  `hasKey` is whether `self.client` exists
(GROQ_API_KEY configured); `oracle` maps the prompt sent to the model to the
outcome of the call+parse.  Every `except` branch returns `fallbackScore`;
a pydantic ValidationError from `ScoreResponse(**result)` is caught by the
blanket `except Exception` (lines 283-291). -/
def ScoreAgent.score (hasKey : Bool) (oracle : String → GroqOutcome)
    (claim : Claim) : ScoreResponse :=
  if !hasKey then fallbackScore
  else
    match oracle (scorePrompt claim) with
    | .apiError _ => fallbackScore
    | .parseError _ => fallbackScore
    | .parsed p =>
      match payloadToResponse p with
      | some r => r
      | none => fallbackScore

/-- State-passing form of the call: the source body of `score` never assigns
to `claim` or its fields and never appends to `claim.evidence`, so the claim
component of the state is returned exactly as received. -/
def ScoreAgent.scoreCall (hasKey : Bool) (oracle : String → GroqOutcome)
    (claim : Claim) : Claim × ScoreResponse :=
  (claim, ScoreAgent.score hasKey oracle claim)

/-! ## VerifyAgent (agents.py lines 152-226) -/

/-- Outcome of `requests.get(link, timeout=10)` + BeautifulSoup parsing:
on success we get `soup.title` (possibly absent) rendered as a string and the
page text `soup.get_text()`; `requests.exceptions.RequestException` and any
other exception are the two `except` branches of lines 179-192. -/
inductive FetchOutcome where
  | success (title : Option String) (text : String)
  | requestError (msg : String)
  | otherError (msg : String)
deriving Repr, DecidableEq

/-- One DuckDuckGo result dict: keys `title`, `body`, `href` may be absent. -/
structure SearchResult where
  title : Option String
  body : Option String
  href : Option String
deriving Repr, DecidableEq

/-- Outcome of `list(ddgs.text(claim.text, max_results=3))`: a result list,
or any exception (lines 218-224). -/
inductive SearchOutcome where
  | ok (results : List SearchResult)
  | err (msg : String)
deriving Repr, DecidableEq

/-- agents.py lines 156-192, the `if link:` block.  `fetch` is the oracle for
the HTTP request keyed by the link.  On success one evidence entry is
appended (`soup.title.string if soup.title else link`, text truncated to 1000
characters) and an empty claim text is replaced; each `except` branch appends
one failure evidence entry with the link as url. -/
def processLink (fetch : String → FetchOutcome) (link : Option String)
    (claim : Claim) : Claim :=
  match link with
  | none => claim
  | some l =>
    match fetch l with
    | .success title text =>
      let titleStr := title.getD l
      let textContent := text.take 1000
      let c := { claim with evidence := claim.evidence ++
        [{ source := "User Link: " ++ titleStr,
           content := "Extracted content: " ++ textContent ++ "...",
           url := l }] }
      if c.text = "" then { c with text := "Check content from " ++ l } else c
    | .requestError msg =>
      { claim with evidence := claim.evidence ++
        [{ source := "User Link",
           content := "Failed to fetch content from " ++ l ++ ": " ++ msg,
           url := l }] }
    | .otherError msg =>
      { claim with evidence := claim.evidence ++
        [{ source := "User Link",
           content := "Error processing link: " ++ msg,
           url := l }] }

/-- agents.py lines 197-201: the placeholder evidence entry appended for an
uploaded image. -/
def imageEvidence : Evidence :=
  { source := "User Image",
    content := "Image received. (Vision analysis not yet implemented)",
    url := "Uploaded Image" }

/-- agents.py lines 195-203, the `if image_content:` block: one placeholder
evidence entry, and an empty claim text is replaced.  Bytes are modelled as a
list of naturals; only presence matters to the code (its length is printed).
Python truthiness: `if image_content:` is false for empty bytes `b""`, so the
caller passes `none` for both absent and empty content. -/
def processImage (image_content : Option (List Nat)) (claim : Claim) : Claim :=
  match image_content with
  | none => claim
  | some _bytes =>
    let c := { claim with evidence := claim.evidence ++ [imageEvidence] }
    if c.text = "" then { c with text := "Verify uploaded image content" } else c

/-- agents.py lines 206-224, the `if claim.text:` block: search runs only when
the claim text is non-empty at this point; each result dict appends one
evidence entry with `.get` defaults; a search exception appends one
`Search Error` entry. -/
def processSearch (search : String → SearchOutcome) (claim : Claim) : Claim :=
  if claim.text = "" then claim
  else
    match search claim.text with
    | .ok results =>
      { claim with evidence := claim.evidence ++
        results.map (fun r =>
          { source := r.title.getD "Unknown",
            content := r.body.getD "",
            url := r.href.getD "" }) }
    | .err msg =>
      { claim with evidence := claim.evidence ++
        [{ source := "Search Error",
           content := "Failed to perform web search: " ++ msg,
           url := "" }] }

/-- agents.py `VerifyAgent.verify`: the three blocks run in order
link, image, search, threading the (mutated) claim through. -/
def VerifyAgent.verify (fetch : String → FetchOutcome)
    (search : String → SearchOutcome) (claim : Claim)
    (link : Option String) (image_content : Option (List Nat)) : Claim :=
  processSearch search (processImage image_content (processLink fetch link claim))

/-! ## ScanAgent (agents.py lines 17-150) -/

/-- One article dict from the NewsData response `results` list; each key read
with `.get` may be absent. -/
structure Article where
  title : Option String
  source_id : Option String
  description : Option String
  link : Option String
deriving Repr, DecidableEq

/-- Outcome of the whole NewsData interaction: the import or the API call
raised (lines 72-75 / 135-138), the response was falsy or had no `results`
key (else-branch), or the `results` list was obtained. -/
inductive FeedOutcome where
  | err (msg : String)
  | noResults
  | results (articles : List Article)
deriving Repr, DecidableEq

/-- Python `article.get('description', '') or title`: an absent or empty
description falls back to the title. -/
def descriptionOr (description : Option String) (title : String) : String :=
  match description with
  | none => title
  | some d => if d = "" then title else d

/-- One claim built from an article (agents.py lines 59-68 / 122-131). -/
def articleClaim (a : Article) : Claim :=
  let title := a.title.getD "No title"
  { id := none,
    text := title,
    source := some (a.source_id.getD "newsdata"),
    status := "unverified",
    evidence := [{ source := a.source_id.getD "newsdata",
                   content := descriptionOr a.description title,
                   url := a.link.getD "" }],
    score := none }

/-- The dedup loop over `response['results']` with its `seen_titles` set
(agents.py lines 54-68 / 117-131): a title already seen is skipped, a fresh
title is recorded and its claim appended. -/
def scanLoop : List Article → List String → List Claim
  | [], _ => []
  | a :: rest, seen =>
    let title := a.title.getD "No title"
    if title ∈ seen then scanLoop rest seen
    else articleClaim a :: scanLoop rest (title :: seen)

/-- The hardcoded fallback claim of `ScanAgent.scan` (agents.py lines 145-149). -/
def fallbackCrisisClaim : Claim :=
  { id := none,
    text := "Breaking: Major earthquake reported in Japan.",
    source := some "social_media_mock",
    status := "unverified",
    evidence := [],
    score := none }

/-- agents.py `ScanAgent.scan`: with a key, run the feed; any error or a
missing/falsy `results` yields no claims; if no claims were collected
(no key, error, or zero usable results) the single fallback claim is
returned. -/
def ScanAgent.scan (hasKey : Bool) (feed : FeedOutcome) : List Claim :=
  let claims : List Claim :=
    if hasKey then
      match feed with
      | .err _ => []
      | .noResults => []
      | .results articles => scanLoop articles []
    else []
  if claims = [] then [fallbackCrisisClaim] else claims

/-- agents.py lines 87-98: the per-category mock headline table. -/
def mockHeadlines : List (String × String) :=
  [("general-news", "Breaking: Major developments in global affairs."),
   ("politics", "Election results show surprising turnout."),
   ("health", "New health guidelines announced by WHO."),
   ("crisis", "Emergency response teams deployed to affected areas."),
   ("finance", "Stock markets show mixed signals amid economic uncertainty."),
   ("tech-ai", "AI breakthrough announced by leading tech company."),
   ("science", "Scientists discover new insights into climate patterns."),
   ("crime", "Law enforcement reports decrease in crime rates."),
   ("international", "International summit addresses global challenges."),
   ("social", "Viral social media trend sparks global conversation.")]

/-- agents.py `_get_mock_news_by_category`: one canned claim,
`mock_data.get(category, "Latest news update.")` as its text. -/
def getMockNewsByCategory (category : String) : List Claim :=
  [{ id := none,
     text := (mockHeadlines.lookup category).getD "Latest news update.",
     source := some "mock_data",
     status := "unverified",
     evidence := [],
     score := none }]

/-- agents.py `ScanAgent.scan_by_category`: same shape as `scan` (the
category-to-API-category mapping only selects which feed is queried, which
the `feed` oracle already reflects); an empty collection falls back to the
one mock claim for the category. -/
def ScanAgent.scanByCategory (hasKey : Bool) (feed : FeedOutcome)
    (category : String) : List Claim :=
  let claims : List Claim :=
    if hasKey then
      match feed with
      | .err _ => []
      | .noResults => []
      | .results articles => scanLoop articles []
    else []
  if claims = [] then getMockNewsByCategory category else claims

/-! ## CrisisAgent (agents.py lines 322-351) -/

/-- Python substring containment `needle in hay` on char lists: the needle is
a prefix of some suffix of the haystack (true for the empty needle). -/
def listContainsSub (hay needle : List Char) : Bool :=
  needle.isPrefixOf hay ||
    match hay with
    | [] => false
    | _ :: t => listContainsSub t needle

/-- Python `needle in hay` on strings. -/
def strContainsSub (hay needle : String) : Bool :=
  listContainsSub hay.data needle.data

/-- agents.py lines 325-332: the fixed crisis keyword list, in order. -/
def crisisKeywords : List String :=
  ["earthquake", "pandemic", "violence", "tsunami", "terror", "flood", "war",
   "attack", "assassinated", "airstrike", "conflict", "dead", "killed",
   "crisis", "warning", "strike", "military", "navy", "russia", "israel",
   "lebanon", "gaza", "ukraine", "iran", "missile", "bomb", "blast",
   "explosion", "fire", "wildfire", "storm", "hurricane", "tornado",
   "typhoon", "cyclone", "weather", "heat", "emergency", "rescue", "police",
   "arrest", "shoot", "gun", "crime", "murder", "crash", "accident",
   "disaster", "danger", "threat", "alert", "breaking"]

/-- Python `str.lower()` (kernel-computable rendering over the char list;
agrees with CPython on the ASCII keyword alphabet used here). -/
def strToLower (s : String) : String :=
  ⟨s.data.map Char.toLower⟩

/-- agents.py line 335: `[k for k in keywords if k in claim.text.lower()]`. -/
def detectedKeywords (text : String) : List String :=
  crisisKeywords.filter (fun k => strContainsSub (strToLower text) k)

/-- models.py `CrisisAlert` (severity kept as a string; `detect_crisis` only
ever constructs the literal "HIGH", which pydantic accepts). -/
structure CrisisAlert where
  id : String
  title : String
  severity : String
  region : Option String
  verified : Bool
  keywords : List String
  description : Option String
deriving Repr, DecidableEq

/-- models.py `CrisisResponse`. -/
structure CrisisResponse where
  crisis_detected : Bool
  alerts : List CrisisAlert
  recommended_actions : List String
deriving Repr, DecidableEq

/-- agents.py lines 337-345: the alert built for one matching claim.
`hashFn` models `str(hash(claim.text))` (Python string hashing is
seed-randomized, so it is an oracle). -/
def mkCrisisAlert (hashFn : String → String) (c : Claim)
    (kws : List String) : CrisisAlert :=
  { id := hashFn c.text,
    title := "Potential Crisis Detected",
    severity := "HIGH",
    region := some "Unknown",
    verified := c.status == "verified",
    keywords := kws,
    description := some c.text }

/-- agents.py `CrisisAgent.detect_crisis`: one alert per claim whose
lowercased text contains a keyword; `crisis_detected` iff any alert; fixed
two actions iff any alert. -/
def CrisisAgent.detect_crisis (hashFn : String → String)
    (claims : List Claim) : CrisisResponse :=
  let alerts := claims.filterMap (fun c =>
    let dk := detectedKeywords c.text
    if dk = [] then none else some (mkCrisisAlert hashFn c dk))
  { crisis_detected := decide (alerts.length > 0),
    alerts := alerts,
    recommended_actions :=
      if alerts = [] then [] else ["Monitor situation", "Verify sources"] }

/-! ## Helper notions and lemmas -/

/-- Python `hay.startswith(pre)` on strings, via char lists. -/
def strStartsWith (hay pre : String) : Bool :=
  pre.data.isPrefixOf hay.data

lemma strStartsWith_userLink (t : String) :
    strStartsWith ("User Link: " ++ t) "User Link" = true := by
  unfold strStartsWith
  rw [List.isPrefixOf_iff_prefix, String.data_append]
  have h : "User Link: ".data = "User Link".data ++ [':', ' '] := by decide
  rw [h, List.append_assoc]
  exact List.prefix_append _ _

/-! ## C1, C8: ScoreAgent theorems -/

/-- C1: `ScoreAgent.score` is total (the embedding is a total function) and
returns the exact fallback `ScoreResponse` (all sub-scores 0, verdict
UNVERIFIED) whenever the credential is missing, the model call raises, the
reply is unparsable, or the parsed payload fails validation; in particular a
verdict outside the four literals or any sub-score outside [0,100] makes
validation fail (`payloadToResponse` yields `none`), so such a payload is
never coerced into a returned `ScoreResponse`. -/
theorem score_fallback_on_failure (k : Bool) (o : String → GroqOutcome)
    (c : Claim) :
    (k = false → ScoreAgent.score k o c = fallbackScore) ∧
    (∀ m, o (scorePrompt c) = GroqOutcome.apiError m →
      ScoreAgent.score k o c = fallbackScore) ∧
    (∀ m, o (scorePrompt c) = GroqOutcome.parseError m →
      ScoreAgent.score k o c = fallbackScore) ∧
    (∀ p, o (scorePrompt c) = GroqOutcome.parsed p → payloadToResponse p = none →
      ScoreAgent.score k o c = fallbackScore) ∧
    (∀ p v, p.verdict = some v → validVerdict v = false →
      payloadToResponse p = none) ∧
    (∀ p n, p.final_score = some n → scoreInRange n = false →
      payloadToResponse p = none) ∧
    (∀ p n, p.source_reliability = some n → scoreInRange n = false →
      payloadToResponse p = none) ∧
    (∀ p n, p.evidence_strength = some n → scoreInRange n = false →
      payloadToResponse p = none) ∧
    (∀ p n, p.consistency = some n → scoreInRange n = false →
      payloadToResponse p = none) ∧
    fallbackScore = { final_score := 0, source_reliability := 0,
                      evidence_strength := 0, consistency := 0,
                      verdict := "UNVERIFIED" } := by
  refine ⟨?_, ?_, ?_, ?_, ?_, ?_, ?_, ?_, ?_, rfl⟩
  · intro hk; simp [ScoreAgent.score, hk]
  · intro m hm
    cases k with
    | false => simp [ScoreAgent.score]
    | true => simp [ScoreAgent.score, hm]
  · intro m hm
    cases k with
    | false => simp [ScoreAgent.score]
    | true => simp [ScoreAgent.score, hm]
  · intro p hp hnone
    cases k with
    | false => simp [ScoreAgent.score]
    | true => simp [ScoreAgent.score, hp, hnone]
  · rintro ⟨fs, sr, es, co, vd⟩ v hv hbad
    simp only at hv
    subst hv
    cases fs <;> cases sr <;> cases es <;> cases co <;>
      simp [payloadToResponse, hbad]
  · rintro ⟨fs, sr, es, co, vd⟩ n hn hbad
    simp only at hn
    subst hn
    cases sr <;> cases es <;> cases co <;> cases vd <;>
      simp [payloadToResponse, hbad]
  · rintro ⟨fs, sr, es, co, vd⟩ n hn hbad
    simp only at hn
    subst hn
    cases fs <;> cases es <;> cases co <;> cases vd <;>
      simp [payloadToResponse, hbad]
  · rintro ⟨fs, sr, es, co, vd⟩ n hn hbad
    simp only at hn
    subst hn
    cases fs <;> cases sr <;> cases co <;> cases vd <;>
      simp [payloadToResponse, hbad]
  · rintro ⟨fs, sr, es, co, vd⟩ n hn hbad
    simp only at hn
    subst hn
    cases fs <;> cases sr <;> cases es <;> cases vd <;>
      simp [payloadToResponse, hbad]

/-- Witness for C1 at concrete inputs: no credential; a failing call; a
parsed payload whose verdict is not one of the four literals; a parsed
payload with a sub-score of 150. -/
theorem score_fallback_on_failure_witness :
    ScoreAgent.score false (fun _ => GroqOutcome.parseError "bad json")
      { id := none, text := "t", source := none, status := "unverified",
        evidence := [], score := none } = fallbackScore ∧
    ScoreAgent.score true (fun _ => GroqOutcome.apiError "timeout")
      { id := none, text := "t", source := none, status := "unverified",
        evidence := [], score := none } = fallbackScore ∧
    ScoreAgent.score true
      (fun _ => GroqOutcome.parsed
        { final_score := some 50, source_reliability := some 50,
          evidence_strength := some 50, consistency := some 50,
          verdict := some "TRUE" })
      { id := none, text := "t", source := none, status := "unverified",
        evidence := [], score := none } = fallbackScore ∧
    ScoreAgent.score true
      (fun _ => GroqOutcome.parsed
        { final_score := some 150, source_reliability := some 50,
          evidence_strength := some 50, consistency := some 50,
          verdict := some "VERIFIED" })
      { id := none, text := "t", source := none, status := "unverified",
        evidence := [], score := none } = fallbackScore := by
  refine ⟨?_, ?_, ?_, ?_⟩
  · exact (score_fallback_on_failure false _ _).1 rfl
  · exact (score_fallback_on_failure true _ _).2.1 "timeout" rfl
  · exact (score_fallback_on_failure true _ _).2.2.2.1 _ rfl
      ((score_fallback_on_failure true (fun _ => GroqOutcome.parseError "x")
        { id := none, text := "t", source := none, status := "unverified",
          evidence := [], score := none }).2.2.2.2.1 _ "TRUE" rfl (by decide))
  · exact (score_fallback_on_failure true _ _).2.2.2.1 _ rfl
      ((score_fallback_on_failure true (fun _ => GroqOutcome.parseError "x")
        { id := none, text := "t", source := none, status := "unverified",
          evidence := [], score := none }).2.2.2.2.2.1 _ 150 rfl (by decide))

/-- C8: the scoring call leaves the claim exactly as received (the source
body never writes to the claim), and the returned `ScoreResponse` depends
only on the claim's text and evidence: two claims agreeing on those two
fields score identically under the same credential and model oracle. -/
theorem score_pure_function_of_text_evidence (k : Bool)
    (o : String → GroqOutcome) (c₁ c₂ : Claim)
    (ht : c₁.text = c₂.text) (he : c₁.evidence = c₂.evidence) :
    (ScoreAgent.scoreCall k o c₁).1 = c₁ ∧
    ScoreAgent.score k o c₁ = ScoreAgent.score k o c₂ := by
  refine ⟨rfl, ?_⟩
  have hp : scorePrompt c₁ = scorePrompt c₂ := by
    unfold scorePrompt
    rw [ht, he]
  unfold ScoreAgent.score
  rw [hp]

/-- Witness for C8: two claims sharing text and evidence but differing in
id, source and status receive the same score. -/
theorem score_pure_function_of_text_evidence_witness :
    (ScoreAgent.scoreCall true (fun _ => GroqOutcome.apiError "down")
      { id := none, text := "t", source := none, status := "unverified",
        evidence := [], score := none }).1 =
      { id := none, text := "t", source := none, status := "unverified",
        evidence := [], score := none } ∧
    ScoreAgent.score true (fun _ => GroqOutcome.apiError "down")
      { id := none, text := "t", source := none, status := "unverified",
        evidence := [], score := none } =
    ScoreAgent.score true (fun _ => GroqOutcome.apiError "down")
      { id := some "42", text := "t", source := some "feed",
        status := "processing", evidence := [], score := none } :=
  score_pure_function_of_text_evidence true _ _ _ rfl rfl

/-! ## C9: claim status values -/

/-- C9: the spec and the pipeline treat `false` as a fourth claim status, but
the pydantic model only admits three: `claimStatusValid` (models.py's
`Literal["unverified", "verified", "processing"]`) rejects "false", so a
`Claim` cannot be constructed with it, while `narrowStatus` (main.py's
post-scoring narrowing) assigns exactly the status "false" on a FALSE
verdict — a status the claim's own model declares invalid. -/
theorem claim_status_false_missing_from_model :
    claimStatusValid "false" = false ∧
    mkClaim none "x" none "false" [] none = none ∧
    narrowStatus "FALSE" = "false" ∧
    claimStatusValid (narrowStatus "FALSE") = false ∧
    claimStatusValid "unverified" = true ∧
    claimStatusValid "verified" = true ∧
    claimStatusValid "processing" = true ∧
    claimStatusValid (narrowStatus "VERIFIED") = true ∧
    claimStatusValid (narrowStatus "MIXED") = true := by
  refine ⟨by decide, ?_, by decide, by decide, by decide, by decide,
    by decide, by decide, by decide⟩
  simp [mkClaim, claimStatusValid]

/-! ## C10: verify is a no-op on empty input -/

/-- C10: with empty claim text, no link and no image, `VerifyAgent.verify`
returns the claim unchanged — in particular no search evidence is appended,
because the search block only runs on non-empty text. -/
theorem verify_noop_on_empty_inputs (fetch : String → FetchOutcome)
    (search : String → SearchOutcome) (c : Claim) (h : c.text = "") :
    VerifyAgent.verify fetch search c none none = c := by
  unfold VerifyAgent.verify processLink processImage processSearch
  simp [h]

/-- Witness for C10 at a concrete empty-text claim. -/
theorem verify_noop_on_empty_inputs_witness :
    VerifyAgent.verify (fun _ => FetchOutcome.requestError "e")
      (fun _ => SearchOutcome.err "e")
      { id := none, text := "", source := none, status := "unverified",
        evidence := [{ source := "s", content := "c", url := "u" }],
        score := none } none none =
      { id := none, text := "", source := none, status := "unverified",
        evidence := [{ source := "s", content := "c", url := "u" }],
        score := none } :=
  verify_noop_on_empty_inputs _ _ _ rfl

/-! ## VerifyAgent stage lemmas -/

lemma processLink_none_eq (f : String → FetchOutcome) (c : Claim) :
    processLink f none c = c := rfl

lemma processLink_some_spec (f : String → FetchOutcome) (l : String)
    (c : Claim) :
    ∃ e : Evidence, (processLink f (some l) c).evidence = c.evidence ++ [e] ∧
      strStartsWith e.source "User Link" = true ∧ e.url = l := by
  cases hf : f l with
  | success title text =>
    refine ⟨{ source := "User Link: " ++ title.getD l,
              content := "Extracted content: " ++ text.take 1000 ++ "...",
              url := l }, ?_, strStartsWith_userLink _, rfl⟩
    simp only [processLink, hf]
    split <;> rfl
  | requestError msg =>
    refine ⟨{ source := "User Link",
              content := "Failed to fetch content from " ++ l ++ ": " ++ msg,
              url := l }, ?_,
      (by decide : strStartsWith "User Link" "User Link" = true), rfl⟩
    simp only [processLink, hf]
  | otherError msg =>
    refine ⟨{ source := "User Link",
              content := "Error processing link: " ++ msg,
              url := l }, ?_,
      (by decide : strStartsWith "User Link" "User Link" = true), rfl⟩
    simp only [processLink, hf]

lemma processLink_evidence_append (f : String → FetchOutcome)
    (link : Option String) (c : Claim) :
    ∃ L : List Evidence, (processLink f link c).evidence = c.evidence ++ L ∧
      (link = none → L = []) ∧
      (∀ l, link = some l → ∃ e, L = [e] ∧
        strStartsWith e.source "User Link" = true ∧ e.url = l) := by
  cases link with
  | none => exact ⟨[], by simp [processLink], fun _ => rfl, by simp⟩
  | some l =>
    obtain ⟨e, he, hs, hu⟩ := processLink_some_spec f l c
    exact ⟨[e], he, by simp, fun l2 hl2 => ⟨e, rfl, hs, by
      cases hl2; exact hu⟩⟩

lemma processImage_evidence_append (img : Option (List Nat)) (c : Claim) :
    ∃ I : List Evidence, (processImage img c).evidence = c.evidence ++ I ∧
      (img = none → I = []) ∧
      (∀ b, img = some b → I = [imageEvidence]) := by
  cases img with
  | none => exact ⟨[], by simp [processImage], fun _ => rfl, by simp⟩
  | some b =>
    refine ⟨[imageEvidence], ?_, by simp, fun _ _ => rfl⟩
    simp only [processImage]
    split <;> rfl

lemma processSearch_evidence_append (s : String → SearchOutcome) (c : Claim) :
    ∃ S : List Evidence, (processSearch s c).evidence = c.evidence ++ S := by
  unfold processSearch
  split
  · exact ⟨[], by simp⟩
  · cases hs : s c.text with
    | ok results => exact ⟨_, rfl⟩
    | err msg => exact ⟨_, rfl⟩

/-! ## C3, C4, C5: VerifyAgent theorems -/

/-- C3: for every combination of supplied inputs, the evidence appended by
`VerifyAgent.verify` decomposes, in order, into the link part, then the
image part, then the search part: the link part is empty iff no link was
supplied and otherwise is a single entry whose source starts with
"User Link"; the image part is empty iff no image was supplied and otherwise
is the single entry with source "User Image".  In particular, with both a
link and an image, the first appended entry starts with "User Link" and the
entry right after it has source "User Image". -/
theorem verify_evidence_order (f : String → FetchOutcome)
    (s : String → SearchOutcome) (c : Claim) (link : Option String)
    (img : Option (List Nat)) :
    (∃ L I S : List Evidence,
      (VerifyAgent.verify f s c link img).evidence =
        c.evidence ++ (L ++ (I ++ S)) ∧
      (link = none → L = []) ∧
      (∀ l, link = some l → ∃ e, L = [e] ∧
        strStartsWith e.source "User Link" = true ∧ e.url = l) ∧
      (img = none → I = []) ∧
      (∀ b, img = some b → I = [imageEvidence]) ∧
      imageEvidence.source = "User Image") ∧
    (∀ l b, link = some l → img = some b →
      ∃ (e : Evidence) (S : List Evidence),
        (VerifyAgent.verify f s c link img).evidence =
          c.evidence ++ e :: imageEvidence :: S ∧
        strStartsWith e.source "User Link" = true ∧
        imageEvidence.source = "User Image") := by
  obtain ⟨L, hL, hLn, hLs⟩ := processLink_evidence_append f link c
  obtain ⟨I, hI, hIn, hIs⟩ :=
    processImage_evidence_append img (processLink f link c)
  obtain ⟨S, hS⟩ :=
    processSearch_evidence_append s (processImage img (processLink f link c))
  have hev : (VerifyAgent.verify f s c link img).evidence =
      c.evidence ++ (L ++ (I ++ S)) := by
    unfold VerifyAgent.verify
    rw [hS, hI, hL]
    simp [List.append_assoc]
  refine ⟨⟨L, I, S, hev, hLn, hLs, hIn, hIs, rfl⟩, ?_⟩
  intro l b hl hb
  obtain ⟨e, hLe, hes, _⟩ := hLs l hl
  have hIe := hIs b hb
  refine ⟨e, S, ?_, hes, rfl⟩
  rw [hev, hLe, hIe]
  simp

/-- Witness for C3 at concrete inputs (a failing link fetch, an image, a
successful search). -/
theorem verify_evidence_order_witness :
    (∃ L I S : List Evidence,
      (VerifyAgent.verify (fun _ => FetchOutcome.requestError "boom")
        (fun _ => SearchOutcome.ok [{ title := some "R", body := some "B",
                                      href := some "H" }])
        { id := none, text := "t", source := none, status := "unverified",
          evidence := [], score := none }
        (some "http://x") (some [1, 2])).evidence =
        [] ++ (L ++ (I ++ S)) ∧
      (some "http://x" = none → L = []) ∧
      (∀ l, some "http://x" = some l → ∃ e, L = [e] ∧
        strStartsWith e.source "User Link" = true ∧ e.url = l) ∧
      (some [1, 2] = none → I = []) ∧
      (∀ b, some [1, 2] = some b → I = [imageEvidence]) ∧
      imageEvidence.source = "User Image") ∧
    (∀ l b, some "http://x" = some l → some [1, 2] = some b →
      ∃ (e : Evidence) (S : List Evidence),
        (VerifyAgent.verify (fun _ => FetchOutcome.requestError "boom")
          (fun _ => SearchOutcome.ok [{ title := some "R", body := some "B",
                                        href := some "H" }])
          { id := none, text := "t", source := none, status := "unverified",
            evidence := [], score := none }
          (some "http://x") (some [1, 2])).evidence =
          [] ++ e :: imageEvidence :: S ∧
        strStartsWith e.source "User Link" = true ∧
        imageEvidence.source = "User Image") :=
  verify_evidence_order _ _ _ _ _

/-- C4: when the supplied link's fetch raises (either `except` branch),
`verify` still returns (the embedding is total, mirroring that both handlers
swallow the exception) and the evidence it returns contains an entry whose
url is exactly the link and whose content ends with the failure reason. -/
theorem verify_link_failure_recorded (f : String → FetchOutcome)
    (s : String → SearchOutcome) (c : Claim) (l m : String)
    (img : Option (List Nat))
    (h : f l = FetchOutcome.requestError m ∨ f l = FetchOutcome.otherError m) :
    ∃ e ∈ (VerifyAgent.verify f s c (some l) img).evidence,
      e.url = l ∧ ∃ p, e.content = p ++ m := by
  obtain ⟨I, hI, _, _⟩ :=
    processImage_evidence_append img (processLink f (some l) c)
  obtain ⟨S, hS⟩ :=
    processSearch_evidence_append s
      (processImage img (processLink f (some l) c))
  have hev : (VerifyAgent.verify f s c (some l) img).evidence =
      (processLink f (some l) c).evidence ++ I ++ S := by
    unfold VerifyAgent.verify
    rw [hS, hI]
  cases h with
  | inl hreq =>
    refine ⟨{ source := "User Link",
              content := "Failed to fetch content from " ++ l ++ ": " ++ m,
              url := l }, ?_, rfl, ⟨"Failed to fetch content from " ++ l ++ ": ", by
                simp [String.append_assoc]⟩⟩
    rw [hev]
    have : (processLink f (some l) c).evidence = c.evidence ++
        [{ source := "User Link",
           content := "Failed to fetch content from " ++ l ++ ": " ++ m,
           url := l }] := by
      simp only [processLink, hreq]
    rw [this]
    simp
  | inr hoth =>
    refine ⟨{ source := "User Link",
              content := "Error processing link: " ++ m,
              url := l }, ?_, rfl, ⟨"Error processing link: ", rfl⟩⟩
    rw [hev]
    have : (processLink f (some l) c).evidence = c.evidence ++
        [{ source := "User Link",
           content := "Error processing link: " ++ m,
           url := l }] := by
      simp only [processLink, hoth]
    rw [this]
    simp

/-- Witness for C4: a concrete link whose fetch fails with "boom". -/
theorem verify_link_failure_recorded_witness :
    ∃ e ∈ (VerifyAgent.verify (fun _ => FetchOutcome.requestError "boom")
      (fun _ => SearchOutcome.err "se")
      { id := none, text := "t", source := none, status := "unverified",
        evidence := [], score := none }
      (some "http://x") none).evidence,
      e.url = "http://x" ∧ ∃ p, e.content = p ++ "boom" :=
  verify_link_failure_recorded _ _ _ "http://x" "boom" none (Or.inl rfl)

/-- C5: `VerifyAgent.verify` only grows the evidence list: the input claim's
evidence is a prefix of the output's (there is a suffix of newly appended
entries), so every pre-existing entry survives unchanged at its position
(taking the first `c.evidence.length` entries of the result gives back
exactly `c.evidence`). -/
theorem verify_evidence_only_grows (f : String → FetchOutcome)
    (s : String → SearchOutcome) (c : Claim) (link : Option String)
    (img : Option (List Nat)) :
    (∃ rest : List Evidence,
      (VerifyAgent.verify f s c link img).evidence = c.evidence ++ rest) ∧
    (VerifyAgent.verify f s c link img).evidence.take c.evidence.length =
      c.evidence := by
  obtain ⟨L, hL, _, _⟩ := processLink_evidence_append f link c
  obtain ⟨I, hI, _, _⟩ :=
    processImage_evidence_append img (processLink f link c)
  obtain ⟨S, hS⟩ :=
    processSearch_evidence_append s (processImage img (processLink f link c))
  have hev : (VerifyAgent.verify f s c link img).evidence =
      c.evidence ++ (L ++ I ++ S) := by
    unfold VerifyAgent.verify
    rw [hS, hI, hL]
    simp [List.append_assoc]
  exact ⟨⟨L ++ I ++ S, hev⟩, by rw [hev]; exact List.take_left _ _⟩

/-! ## C6, C7: ScanAgent theorems -/

lemma scanLoop_texts_nodup (arts : List Article) (seen : List String) :
    ((scanLoop arts seen).map Claim.text).Nodup ∧
    ∀ t ∈ (scanLoop arts seen).map Claim.text, t ∉ seen := by
  induction arts generalizing seen with
  | nil => simp [scanLoop]
  | cons a rest ih =>
    by_cases h : (a.title.getD "No title") ∈ seen
    · rw [scanLoop, if_pos h]
      obtain ⟨hnd, hni⟩ := ih seen
      exact ⟨hnd, hni⟩
    · rw [scanLoop, if_neg h]
      obtain ⟨hnd, hni⟩ := ih ((a.title.getD "No title") :: seen)
      have htext : (articleClaim a).text = a.title.getD "No title" := rfl
      refine ⟨?_, ?_⟩
      · rw [List.map_cons, List.nodup_cons]
        refine ⟨?_, hnd⟩
        intro hmem
        have := hni _ hmem
        rw [htext] at this
        exact this (List.mem_cons_self _ _)
      · intro t ht
        rw [List.map_cons, List.mem_cons] at ht
        cases ht with
        | inl heq => rw [heq, htext]; exact h
        | inr hmem =>
          intro hts
          exact hni t hmem (List.mem_cons_of_mem _ hts)

/-- C6: within one call, the claims returned by `ScanAgent.scan` and by
`ScanAgent.scanByCategory` have pairwise distinct headline texts — the
`seen_titles` set deduplicates strictly by exact title, and the fallback
paths return a single claim. -/
theorem scan_headlines_distinct (k : Bool) (feed : FeedOutcome)
    (cat : String) :
    ((ScanAgent.scan k feed).map Claim.text).Nodup ∧
    ((ScanAgent.scanByCategory k feed cat).map Claim.text).Nodup := by
  constructor
  · cases k with
    | false => simp [ScanAgent.scan]
    | true =>
      cases feed with
      | err m => simp [ScanAgent.scan]
      | noResults => simp [ScanAgent.scan]
      | results arts =>
        by_cases h : scanLoop arts [] = []
        · simp [ScanAgent.scan, h]
        · simpa [ScanAgent.scan, h] using (scanLoop_texts_nodup arts []).1
  · cases k with
    | false => simp [ScanAgent.scanByCategory, getMockNewsByCategory]
    | true =>
      cases feed with
      | err m => simp [ScanAgent.scanByCategory, getMockNewsByCategory]
      | noResults => simp [ScanAgent.scanByCategory, getMockNewsByCategory]
      | results arts =>
        by_cases h : scanLoop arts [] = []
        · simp [ScanAgent.scanByCategory, getMockNewsByCategory, h]
        · simpa [ScanAgent.scanByCategory, h] using
            (scanLoop_texts_nodup arts []).1

/-- C7: whenever the feed credential is absent, the feed call raised, or the
feed produced no usable results, `ScanAgent.scan` returns exactly the single
hardcoded crisis claim and `ScanAgent.scanByCategory` exactly the single
canned claim for the category; and on every input whatsoever, both return a
non-empty list (the fallback path is total, so it never raises). -/
theorem scan_fallback_single_claim :
    (∀ (k : Bool) (feed : FeedOutcome) (cat : String),
      (k = false ∨ (∃ m, feed = FeedOutcome.err m) ∨
        feed = FeedOutcome.noResults ∨ feed = FeedOutcome.results []) →
      ScanAgent.scan k feed = [fallbackCrisisClaim] ∧
      ScanAgent.scanByCategory k feed cat = getMockNewsByCategory cat ∧
      (getMockNewsByCategory cat).length = 1) ∧
    (∀ (k : Bool) (feed : FeedOutcome) (cat : String),
      ScanAgent.scan k feed ≠ [] ∧
      ScanAgent.scanByCategory k feed cat ≠ []) := by
  constructor
  · intro k feed cat h
    have hclaims : (if k then
        match feed with
        | FeedOutcome.err _ => ([] : List Claim)
        | FeedOutcome.noResults => []
        | FeedOutcome.results arts => scanLoop arts []
      else []) = [] := by
      rcases h with hk | ⟨m, hm⟩ | hn | hr
      · rw [hk]; rfl
      · rw [hm]; cases k <;> rfl
      · rw [hn]; cases k <;> rfl
      · rw [hr]; cases k <;> rfl
    refine ⟨?_, ?_, rfl⟩
    · unfold ScanAgent.scan
      rw [hclaims]
      rfl
    · unfold ScanAgent.scanByCategory
      rw [hclaims]
      rfl
  · intro k feed cat
    have h1 : ∀ claims fb : List Claim, fb ≠ [] →
        (if claims = [] then fb else claims) ≠ [] := by
      intro claims fb hfb
      split
      · exact hfb
      · assumption
    exact ⟨h1 _ _ (by simp), h1 _ _ (by simp [getMockNewsByCategory])⟩

/-- Witness for C7: unknown category with no credential; a failing feed with
a credential. -/
theorem scan_fallback_single_claim_witness :
    (ScanAgent.scan false FeedOutcome.noResults = [fallbackCrisisClaim] ∧
      ScanAgent.scanByCategory false FeedOutcome.noResults "politics" =
        getMockNewsByCategory "politics" ∧
      (getMockNewsByCategory "politics").length = 1) ∧
    (ScanAgent.scan true (FeedOutcome.err "http 500") = [fallbackCrisisClaim] ∧
      ScanAgent.scanByCategory true (FeedOutcome.err "http 500") "no-such-cat" =
        getMockNewsByCategory "no-such-cat" ∧
      (getMockNewsByCategory "no-such-cat").length = 1) :=
  ⟨scan_fallback_single_claim.1 false FeedOutcome.noResults "politics"
      (Or.inl rfl),
    scan_fallback_single_claim.1 true (FeedOutcome.err "http 500") "no-such-cat"
      (Or.inr (Or.inl ⟨"http 500", rfl⟩))⟩

/-! ## C2: CrisisAgent theorems -/

lemma detect_crisis_alerts_cons (h : String → String) (c : Claim)
    (rest : List Claim) :
    (CrisisAgent.detect_crisis h (c :: rest)).alerts =
      (if detectedKeywords c.text = [] then []
       else [mkCrisisAlert h c (detectedKeywords c.text)]) ++
      (CrisisAgent.detect_crisis h rest).alerts := by
  simp only [CrisisAgent.detect_crisis, List.filterMap_cons]
  split <;> simp_all

lemma detect_crisis_alerts_length (hashFn : String → String)
    (claims : List Claim) :
    (CrisisAgent.detect_crisis hashFn claims).alerts.length =
      claims.countP (fun c => !decide (detectedKeywords c.text = [])) := by
  induction claims with
  | nil => rfl
  | cons c rest ih =>
    rw [detect_crisis_alerts_cons, List.length_append, ih, List.countP_cons]
    by_cases h : detectedKeywords c.text = []
    · simp [h]
    · simp only [h, decide_False, Bool.not_false, if_neg, if_pos]
      simp [h]
      omega

lemma detect_crisis_alerts_mem (hashFn : String → String)
    (claims : List Claim) :
    ∀ a ∈ (CrisisAgent.detect_crisis hashFn claims).alerts,
      ∃ c ∈ claims, detectedKeywords c.text ≠ [] ∧
        a = mkCrisisAlert hashFn c (detectedKeywords c.text) := by
  induction claims with
  | nil => intro a ha; simp [CrisisAgent.detect_crisis] at ha
  | cons c rest ih =>
    intro a ha
    rw [detect_crisis_alerts_cons, List.mem_append] at ha
    cases ha with
    | inl h1 =>
      by_cases h : detectedKeywords c.text = []
      · rw [if_pos h] at h1
        simp at h1
      · rw [if_neg h] at h1
        simp only [List.mem_singleton] at h1
        exact ⟨c, List.mem_cons_self _ _, h, h1⟩
    | inr h2 =>
      obtain ⟨c2, hc2, hk2, ha2⟩ := ih a h2
      exact ⟨c2, List.mem_cons_of_mem _ hc2, hk2, ha2⟩

/-- C2: `CrisisAgent.detect_crisis` emits exactly one alert per claim whose
lowercased text contains some keyword (the alert count equals the count of
matching claims); every alert carries severity "HIGH", region "Unknown",
title "Potential Crisis Detected", `verified` mirroring whether its claim's
status is "verified", the claim text verbatim as description, and as
keywords exactly the matching keywords in keyword-list order (a sublist of
`crisisKeywords` whose members are precisely the keywords occurring in the
lowercased text); `crisis_detected` is true iff some alert exists;
`recommended_actions` is the fixed two-item list iff some alert exists; and a
batch with no keyword match yields the all-empty response. -/
theorem detect_crisis_spec (hashFn : String → String) (claims : List Claim) :
    ((CrisisAgent.detect_crisis hashFn claims).alerts.length =
      claims.countP (fun c => !decide (detectedKeywords c.text = []))) ∧
    (∀ a ∈ (CrisisAgent.detect_crisis hashFn claims).alerts,
      a.title = "Potential Crisis Detected" ∧
      a.severity = "HIGH" ∧
      a.region = some "Unknown" ∧
      ∃ c ∈ claims,
        a.description = some c.text ∧
        a.verified = (c.status == "verified") ∧
        a.keywords = detectedKeywords c.text ∧
        a.keywords.Sublist crisisKeywords ∧
        a.keywords ≠ [] ∧
        (∀ kw, kw ∈ a.keywords ↔
          kw ∈ crisisKeywords ∧ strContainsSub (strToLower c.text) kw = true)) ∧
    ((CrisisAgent.detect_crisis hashFn claims).crisis_detected = true ↔
      (CrisisAgent.detect_crisis hashFn claims).alerts ≠ []) ∧
    ((CrisisAgent.detect_crisis hashFn claims).recommended_actions =
      if (CrisisAgent.detect_crisis hashFn claims).alerts = [] then []
      else ["Monitor situation", "Verify sources"]) ∧
    ((∀ c ∈ claims, detectedKeywords c.text = []) →
      CrisisAgent.detect_crisis hashFn claims =
        { crisis_detected := false, alerts := [], recommended_actions := [] }) := by
  refine ⟨detect_crisis_alerts_length hashFn claims, ?_, ?_, ?_, ?_⟩
  · intro a ha
    obtain ⟨c, hc, hk, hae⟩ := detect_crisis_alerts_mem hashFn claims a ha
    subst hae
    refine ⟨rfl, rfl, rfl, c, hc, rfl, rfl, rfl, List.filter_sublist _, hk, ?_⟩
    intro kw
    exact List.mem_filter
  · simp only [CrisisAgent.detect_crisis]
    simp [List.length_pos]
  · simp only [CrisisAgent.detect_crisis]
  · intro hall
    have hnil : (claims.filterMap fun c =>
        let dk := detectedKeywords c.text
        if dk = [] then none else some (mkCrisisAlert hashFn c dk)) = [] := by
      rw [List.filterMap_eq_nil_iff]
      intro c hc
      simp [hall c hc]
    simp [CrisisAgent.detect_crisis, hnil]

/-- Witness for C2: a batch whose single claim matches no keyword yields the
all-empty crisis response. -/
theorem detect_crisis_spec_witness :
    CrisisAgent.detect_crisis (fun _ => "0")
      [{ id := none, text := "hello", source := none,
         status := "unverified", evidence := [], score := none }] =
      { crisis_detected := false, alerts := [], recommended_actions := [] } :=
  (detect_crisis_spec (fun _ => "0") _).2.2.2.2 (by decide)

end FastBackend
